import Mathlib

/-!
Verification of the interactive DrQA question-answering front end
(`scripts/pipeline_transformers/interactive.py`).

The script builds one of two retrieval pipelines (`tfidf` or `serini-bm25`),
defines an orchestrator function `process(question, top_n=3, n_docs=n_docs_default)`
that calls `pipeline.process(question, top_n, n_docs, return_context=True)`,
logs the elapsed wall-clock time, renders a summary table (prettytable) and
per-answer highlighted context views (termcolor), and finally drops into
`code.interact(banner=banner, local=locals())`.

The embedding below models the data the orchestrator and renderer manipulate:
predictions are records with the fields the renderer reads; the backend is an
abstract function returning either a prediction list or an error; the terminal
output is a list of structured lines; the wall-clock measurement is an abstract
elapsed-time parameter.  Python string slicing on the non-negative indices used
here is `List.take` / `List.drop` with Python's clamping behaviour.  Scores are
floats in the source; the claims under study only pass them through to the
table, so they are modelled as integers with an abstract formatter standing in
for `'%.5g'`.
-/

namespace DrQAInteractive

/-- The two retriever choices of the `--retriever` command-line option. -/
inductive Retriever where
  | tfidf
  | seriniBm25
deriving DecidableEq, Repr

/-- `n_docs_default`, set once at startup: 5 in the `tfidf` branch and 30 in
the `serini-bm25` branch of the script. -/
def n_docs_default : Retriever → Nat
  | .tfidf => 5
  | .seriniBm25 => 30

/-- The `context` entry of a prediction: the containing text plus character
offsets.  The source's `end` key is called `stop` here (`end` is a Lean
keyword). -/
structure Ctx where
  text : List Char
  start : Nat
  stop : Nat
deriving DecidableEq, Repr

/-- One prediction dictionary as read by the renderer: keys `span`, `doc_id`,
`span_score`, `doc_score` and the optional `context`.  A missing `context` key
is `none` (reading it in Python raises `KeyError`). -/
structure Pred where
  span : String
  doc_id : String
  span_score : Int
  doc_score : Int
  context : Option Ctx
deriving DecidableEq, Repr

/-- The argument tuple of one call to `pipeline.process`. -/
structure Call where
  question : String
  top_n : Nat
  n_docs : Nat
  return_context : Bool
deriving DecidableEq, Repr

/-- One row of the prettytable summary: columns
`Rank, Answer, Doc, Answer Score, Doc Score`. -/
structure Row where
  rank : Nat
  answer : String
  doc : String
  answerScore : String
  docScore : String
deriving DecidableEq, Repr

/-- Stands in for the `'%.5g' % score` formatting of the source (numeric
rendering of the float scores is abstracted; the claims only pass the
formatted value through). -/
def fmtScore (x : Int) : String := toString x

/-- One line of terminal/log output produced by `process`. -/
inductive Line where
  | latency (secs : Nat)
  | topPredictions
  | table (rows : List Row)
  | contextsHeading
  | docHeader (doc_id : String)
  | contextView (content : List Char)
deriving DecidableEq, Repr

/-- Python `text[:b]` for a non-negative index (clamped at the length). -/
def pySliceUpTo (s : List Char) (b : Nat) : List Char := s.take b

/-- Python `text[a:]` for a non-negative index (clamped at the length). -/
def pySliceFrom (s : List Char) (a : Nat) : List Char := s.drop a

/-- Python `text[a:b]` for non-negative indices (clamped at the length). -/
def pySlice (s : List Char) (a b : Nat) : List Char := (s.take b).drop a

/-- ANSI escape introducing bold (`ESC[1m`). -/
def ansiBold : List Char := ['\x1b', '[', '1', 'm']

/-- ANSI escape introducing green (`ESC[32m`). -/
def ansiGreen : List Char := ['\x1b', '[', '3', '2', 'm']

/-- ANSI reset (`ESC[0m`). -/
def ansiReset : List Char := ['\x1b', '[', '0', 'm']

/-- `termcolor.colored(s, 'green', attrs=['bold'])`: the text wrapped in the
bold and green escapes and terminated by the reset escape. -/
def colored (s : List Char) : List Char := ansiBold ++ ansiGreen ++ s ++ ansiReset

/-- The highlighted context string built by the renderer:
`text[:start] + colored(text[start:end], ...) + text[end:]`. -/
def contextOutput (c : Ctx) : List Char :=
  pySliceUpTo c.text c.start ++ colored (pySlice c.text c.start c.stop) ++
    pySliceFrom c.text c.stop

/-- The same three slices concatenated without any styling. -/
def plainContextOutput (c : Ctx) : List Char :=
  pySliceUpTo c.text c.start ++ pySlice c.text c.start c.stop ++
    pySliceFrom c.text c.stop

/-- Scanner state while removing ANSI escape sequences: plain text, just saw
`ESC`, or inside an `ESC[...m` sequence. -/
inductive StripState where
  | normal
  | seenEsc
  | inSeq
deriving DecidableEq, Repr

/-- State machine removing ANSI escape sequences `ESC[...m` while copying all
other characters through. -/
def stripAnsiGo : StripState → List Char → List Char
  | .normal, [] => []
  | .seenEsc, [] => ['\x1b']
  | .inSeq, [] => []
  | .normal, c :: l =>
    if c = '\x1b' then stripAnsiGo .seenEsc l else c :: stripAnsiGo .normal l
  | .seenEsc, c :: l =>
    if c = '[' then stripAnsiGo .inSeq l else '\x1b' :: c :: stripAnsiGo .normal l
  | .inSeq, c :: l =>
    if c = 'm' then stripAnsiGo .normal l else stripAnsiGo .inSeq l

/-- Remove every ANSI escape sequence `ESC[...m` from a string: the styling
stripper used to state the highlighting round-trip. -/
def stripAnsi (l : List Char) : List Char := stripAnsiGo .normal l

/-- The summary-table rows: `for i, p in enumerate(predictions, 1):
table.add_row([i, p['span'], p['doc_id'], '%.5g' % p['span_score'],
'%.5g' % p['doc_score']])`. -/
def renderTable (preds : List Pred) : List Row :=
  (List.enumFrom 1 preds).map fun ip =>
    ⟨ip.1, ip.2.span, ip.2.doc_id, fmtScore ip.2.span_score, fmtScore ip.2.doc_score⟩

/-- The context-view loop: for each prediction, read `p['context']` (a missing
key raises `KeyError`, modelled by the `Bool` component becoming `true` and the
loop stopping), then print the doc header and the highlighted context.
Returns the printed lines together with the raised? flag. -/
def renderContexts : List Pred → List Line × Bool
  | [] => ([], false)
  | p :: ps =>
    match p.context with
    | none => ([], true)
    | some c =>
      let r := renderContexts ps
      (Line.docHeader p.doc_id :: Line.contextView (contextOutput c) :: r.1, r.2)

/-- A query-level failure: either the backend raised (the payload carried
unchanged), or the renderer hit a missing `context` key. -/
inductive PError (ε : Type) where
  | backend (e : ε)
  | keyError
deriving DecidableEq, Repr

/-- Everything observable about one invocation of `process`: the backend calls
made (in order), the output lines printed before any failure, and the failure,
if one was raised. -/
structure ProcResult (ε : Type) where
  calls : List Call
  lines : List Line
  err : Option (PError ε)
deriving DecidableEq, Repr

/-- The orchestrator `process(question, top_n=3, n_docs=n_docs_default)` of the
script, for the retriever `r` selected at startup.  `backend` is the abstract
`pipeline.process`; `elapsed` the abstract wall-clock duration of the backend
call.  On backend success the latency is logged, the summary table and the
context views are printed; on backend failure the exception propagates at once
and nothing is printed. -/
def process {ε : Type} (r : Retriever) (backend : Call → Except ε (List Pred))
    (elapsed : Nat) (question : String) (top_n : Nat := 3)
    (n_docs : Nat := n_docs_default r) : ProcResult ε :=
  let c : Call := ⟨question, top_n, n_docs, true⟩
  match backend c with
  | .error e => ⟨[c], [], some (.backend e)⟩
  | .ok preds =>
    let rc := renderContexts preds
    ⟨[c],
     Line.latency elapsed :: Line.topPredictions :: Line.table (renderTable preds) ::
       Line.contextsHeading :: rc.1,
     if rc.2 then some .keyError else none⟩

/-- The fixed banner string printed by `code.interact` and by `usage()`. -/
def bannerText : String :=
  "\n    Interactive DrQA\n    >> process(question, top_n=1, n_docs=5)\n    >> usage()\n    "

/-- The output of the `usage()` command: it reprints the fixed banner. -/
def usageOutput : List String := [bannerText]

/-- The bindings visible in the namespace handed to
`code.interact(banner=banner, local=locals())`, in source order, each marked
with whether the bound Python object is callable (functions and classes are;
modules, parsed args, handler/formatter/pipeline instances and strings are
not). -/
def shellLocals : List (String × Bool) :=
  [("os", false), ("torch", false), ("argparse", false), ("code", false),
   ("prettytable", false), ("logging", false), ("time", false),
   ("colored", true), ("DrQATransformers", true), ("PyseriniTransformersQA", true),
   ("logger", false), ("fmt", false), ("console", false), ("parser", false),
   ("args", false), ("pipeline", false), ("n_docs_default", false),
   ("process", true), ("banner", false), ("usage", true)]

/-- A backend that always raises, carrying an error string (models
`RetrievalError` from the pipeline). -/
def failBackend : Call → Except String (List Pred) := fun _ => .error "RetrievalError"

/-- A backend that succeeds with an empty result sequence. -/
def okBackendEmpty : Call → Except String (List Pred) := fun _ => .ok []

/-- A prediction whose `context` key is missing. -/
def predNoCtx : Pred := ⟨"Paris", "doc1", 1, 2, none⟩

/-- A prediction with a populated `context`. -/
def predWithCtx : Pred := ⟨"Paris", "doc2", 1, 2, some ⟨"Paris is nice".data, 0, 5⟩⟩

/-- A backend that succeeds with a single fully-populated prediction. -/
def okBackendOne : Call → Except String (List Pred) := fun _ => .ok [predWithCtx]

/-! ### Helper lemmas -/

lemma stripAnsiGo_normal_cons (c : Char) (l : List Char) (h : c ≠ '\x1b') :
    stripAnsiGo .normal (c :: l) = c :: stripAnsiGo .normal l := by
  simp [stripAnsiGo, h]

lemma stripAnsiGo_normal_append (l r : List Char) (h : '\x1b' ∉ l) :
    stripAnsiGo .normal (l ++ r) = l ++ stripAnsiGo .normal r := by
  induction l with
  | nil => simp
  | cons a as ih =>
    have ha : a ≠ '\x1b' := fun e => h (e ▸ List.mem_cons_self a as)
    rw [List.cons_append, stripAnsiGo_normal_cons a _ ha,
      ih (fun hm => h (List.mem_cons_of_mem a hm)), List.cons_append]

lemma stripAnsiGo_normal_of_no_esc (l : List Char) (h : '\x1b' ∉ l) :
    stripAnsiGo .normal l = l := by
  have := stripAnsiGo_normal_append l [] h
  simpa [stripAnsi, stripAnsiGo] using this

lemma stripAnsiGo_bold (r : List Char) :
    stripAnsiGo .normal (ansiBold ++ r) = stripAnsiGo .normal r := rfl

lemma stripAnsiGo_green (r : List Char) :
    stripAnsiGo .normal (ansiGreen ++ r) = stripAnsiGo .normal r := rfl

lemma stripAnsiGo_reset (r : List Char) :
    stripAnsiGo .normal (ansiReset ++ r) = stripAnsiGo .normal r := rfl

lemma plainContextOutput_eq (c : Ctx) (h1 : c.start ≤ c.stop)
    (_h2 : c.stop ≤ c.text.length) : plainContextOutput c = c.text := by
  unfold plainContextOutput pySliceUpTo pySlice pySliceFrom
  have h4 : (c.text.take c.stop).take c.start = c.text.take c.start := by
    rw [List.take_take]
    congr 1
    omega
  rw [← h4, List.take_append_drop, List.take_append_drop]

lemma stripAnsi_contextOutput (c : Ctx) (h1 : c.start ≤ c.stop)
    (h2 : c.stop ≤ c.text.length) (h3 : '\x1b' ∉ c.text) :
    stripAnsi (contextOutput c) = c.text := by
  have hpre : '\x1b' ∉ c.text.take c.start :=
    fun hm => h3 (List.take_subset _ _ hm)
  have hmid : '\x1b' ∉ (c.text.take c.stop).drop c.start :=
    fun hm => h3 (List.take_subset _ _ (List.drop_subset _ _ hm))
  have hpost : '\x1b' ∉ c.text.drop c.stop :=
    fun hm => h3 (List.drop_subset _ _ hm)
  unfold stripAnsi contextOutput colored pySliceUpTo pySlice pySliceFrom
  simp only [List.append_assoc]
  rw [stripAnsiGo_normal_append _ _ hpre, stripAnsiGo_bold, stripAnsiGo_green,
    stripAnsiGo_normal_append _ _ hmid, stripAnsiGo_reset,
    stripAnsiGo_normal_of_no_esc _ hpost]
  have hplain := plainContextOutput_eq c h1 h2
  unfold plainContextOutput pySliceUpTo pySlice pySliceFrom at hplain
  simpa only [List.append_assoc] using hplain

lemma enumFrom_rank_aux (n : Nat) (preds : List Pred) :
    ((List.enumFrom n preds).map fun ip =>
        (⟨ip.1, ip.2.span, ip.2.doc_id, fmtScore ip.2.span_score,
          fmtScore ip.2.doc_score⟩ : Row)).map Row.rank
      = List.range' n preds.length := by
  induction preds generalizing n with
  | nil => rfl
  | cons p ps ih => simp [List.enumFrom, List.range', ih]

lemma enumFrom_content_aux (n : Nat) (preds : List Pred) :
    ((List.enumFrom n preds).map fun ip =>
        (⟨ip.1, ip.2.span, ip.2.doc_id, fmtScore ip.2.span_score,
          fmtScore ip.2.doc_score⟩ : Row)).map
        (fun row => (row.answer, row.doc, row.answerScore, row.docScore))
      = preds.map fun p => (p.span, p.doc_id, fmtScore p.span_score, fmtScore p.doc_score) := by
  induction preds generalizing n with
  | nil => rfl
  | cons p ps ih => simp [List.enumFrom, ih]

/-! ### Claims -/

/-- C1: `process` takes `top_n = 3` when `top_n` is omitted and the active
backend's configured default when `n_docs` is omitted — 5 for the `tfidf`
(Dense-Index) backend and 30 for the `serini-bm25` (Inverted-Index) backend —
so omitting the arguments yields the same result as passing those values
explicitly. -/
theorem process_defaults {ε : Type} (r : Retriever)
    (backend : Call → Except ε (List Pred)) (elapsed : Nat) (q : String) :
    process r backend elapsed q = process r backend elapsed q 3 (n_docs_default r) ∧
      n_docs_default Retriever.tfidf = 5 ∧
      n_docs_default Retriever.seriniBm25 = 30 :=
  ⟨rfl, rfl, rfl⟩

/-- C2: the context view is exactly `text[:start]` ++ a styled copy of
`text[start:end]` ++ `text[end:]`; stripping the styling returns `context.text`
unchanged, and for valid offsets the three plain slices reassemble the original
string. -/
theorem contextOutput_spec (c : Ctx) (h1 : c.start ≤ c.stop)
    (h2 : c.stop ≤ c.text.length) (h3 : '\x1b' ∉ c.text) :
    contextOutput c =
        pySliceUpTo c.text c.start ++ colored (pySlice c.text c.start c.stop) ++
          pySliceFrom c.text c.stop ∧
      stripAnsi (contextOutput c) = c.text ∧
      plainContextOutput c = c.text :=
  ⟨rfl, stripAnsi_contextOutput c h1 h2 h3, plainContextOutput_eq c h1 h2⟩

/-- Witness for C2 at a concrete context. -/
theorem contextOutput_spec_witness :
    stripAnsi (contextOutput ⟨"Paris is the capital".data, 4, 9⟩) =
        "Paris is the capital".data ∧
      plainContextOutput ⟨"Paris is the capital".data, 4, 9⟩ =
        "Paris is the capital".data :=
  have h := contextOutput_spec ⟨"Paris is the capital".data, 4, 9⟩
    (by decide) (by decide) (by decide)
  ⟨h.2.1, h.2.2⟩

/-- C3: the summary table has exactly one row per prediction in sequence
order; the Rank column is exactly `1..N` with no gaps, assigned by 1-based
enumeration, and the other columns are read off the corresponding prediction
(predictions carry no rank field the renderer could copy). -/
theorem renderTable_ranks (preds : List Pred) :
    (renderTable preds).length = preds.length ∧
      (renderTable preds).map Row.rank = List.range' 1 preds.length ∧
      (renderTable preds).map
          (fun row => (row.answer, row.doc, row.answerScore, row.docScore)) =
        preds.map fun p =>
          (p.span, p.doc_id, fmtScore p.span_score, fmtScore p.doc_score) :=
  ⟨by simp [renderTable], enumFrom_rank_aux 1 preds, enumFrom_content_aux 1 preds⟩

/-- C4 counterexample: when the backend raises, `process` emits no output at
all — in particular no latency report — contradicting the claim that the
latency is reported even when the backend raises. -/
theorem process_fail_no_latency_cex :
    (process Retriever.tfidf failBackend 7 "What is the capital of France?").lines = [] ∧
      (process Retriever.tfidf failBackend 7 "What is the capital of France?").err =
        some (PError.backend "RetrievalError") :=
  ⟨rfl, rfl⟩

/-- C4 amended: the wall-clock duration of the backend call is reported when
the backend call succeeds; when the backend raises, the failure propagates
before the latency report, so nothing is reported. -/
theorem process_latency_on_success {ε : Type} (r : Retriever)
    (backend : Call → Except ε (List Pred)) (elapsed : Nat) (q : String)
    (top_n n_docs : Nat) :
    (∀ preds, backend ⟨q, top_n, n_docs, true⟩ = Except.ok preds →
        ∃ rest, (process r backend elapsed q top_n n_docs).lines =
          Line.latency elapsed :: rest) ∧
      (∀ e, backend ⟨q, top_n, n_docs, true⟩ = Except.error e →
        (process r backend elapsed q top_n n_docs).lines = []) := by
  constructor
  · intro preds h
    exact ⟨Line.topPredictions :: Line.table (renderTable preds) ::
      Line.contextsHeading :: (renderContexts preds).1, by simp [process, h]⟩
  · intro e h
    simp [process, h]

/-- Witness for the amended C4 at a concrete succeeding backend. -/
theorem process_latency_on_success_witness :
    ∃ rest, (process Retriever.tfidf okBackendEmpty 7 "q" 3 5).lines =
      Line.latency 7 :: rest :=
  (process_latency_on_success Retriever.tfidf okBackendEmpty 7 "q" 3 5).1 [] rfl

/-- C5 counterexample: a span with a missing `context` key makes the renderer
raise (`KeyError` on `p['context']`): it neither skips the span nor renders
the remaining spans — here a later fully-populated span produces no output. -/
theorem renderContexts_missing_cex :
    (renderContexts [predNoCtx, predWithCtx]).2 = true ∧
      (renderContexts [predNoCtx, predWithCtx]).1 = [] :=
  ⟨rfl, rfl⟩

/-- C5 amended: for a span whose `context` field is absent, the renderer
raises a lookup failure at that span instead of skipping it; spans before it
are rendered, the failing span and all later spans are not, and context
rendering does not complete normally. -/
theorem renderContexts_raises (ps qs : List Pred) (p : Pred)
    (h : p.context = none) :
    (renderContexts (ps ++ p :: qs)).2 = true ∧
      (renderContexts (ps ++ p :: qs)).1 = (renderContexts ps).1 := by
  induction ps with
  | nil => simp [renderContexts, h]
  | cons a as ih => cases ha : a.context <;> simp [renderContexts, ha, ih]

/-- Witness for the amended C5 at a concrete prediction list. -/
theorem renderContexts_raises_witness :
    (renderContexts [predWithCtx, predNoCtx]).2 = true ∧
      (renderContexts [predWithCtx, predNoCtx]).1 =
        (renderContexts [predWithCtx]).1 :=
  renderContexts_raises [predWithCtx] [] predNoCtx rfl

/-- C6: the backend is invoked exactly once per query (the call trace is the
one-element list of the single call) and a backend failure is propagated
unchanged to the caller. -/
theorem process_propagates_failure {ε : Type} (r : Retriever)
    (backend : Call → Except ε (List Pred)) (elapsed : Nat) (q : String)
    (top_n n_docs : Nat) :
    (process r backend elapsed q top_n n_docs).calls = [⟨q, top_n, n_docs, true⟩] ∧
      ∀ e, backend ⟨q, top_n, n_docs, true⟩ = Except.error e →
        (process r backend elapsed q top_n n_docs).err = some (PError.backend e) := by
  constructor
  · cases hb : backend ⟨q, top_n, n_docs, true⟩ <;> simp [process, hb]
  · intro e h
    simp [process, h]

/-- Witness for C6 at a concrete failing backend. -/
theorem process_propagates_failure_witness :
    (process Retriever.seriniBm25 failBackend 3 "q" 3 30).err =
      some (PError.backend "RetrievalError") :=
  (process_propagates_failure Retriever.seriniBm25 failBackend 3 "q" 3 30).2
    "RetrievalError" rfl

/-- C7: every backend call made by `process` carries `return_context = true`,
whatever the question, `top_n` and `n_docs` arguments. -/
theorem process_return_context {ε : Type} (r : Retriever)
    (backend : Call → Except ε (List Pred)) (elapsed : Nat) (q : String)
    (top_n n_docs : Nat) :
    (process r backend elapsed q top_n n_docs).calls.map Call.return_context = [true] := by
  cases hb : backend ⟨q, top_n, n_docs, true⟩ <;> simp [process, hb]

/-- C8 counterexample: the startup defaults are 5 for the `tfidf`
(dense/bag-of-words) variant and 30 for the `serini-bm25` (inverted-index)
variant — not 5 for the inverted-index variant and 30 for the dense one as the
claim states. -/
theorem n_docs_default_swapped_cex :
    n_docs_default Retriever.seriniBm25 = 30 ∧
      n_docs_default Retriever.tfidf = 5 ∧
      ¬(n_docs_default Retriever.seriniBm25 = 5 ∧
        n_docs_default Retriever.tfidf = 30) := by
  decide

/-- C8 amended: the per-backend default `n_docs` fixed at startup is 5 for the
`tfidf` variant and 30 for the `serini-bm25` inverted-index variant. -/
theorem n_docs_default_values :
    n_docs_default Retriever.tfidf = 5 ∧ n_docs_default Retriever.seriniBm25 = 30 := by
  decide

/-- C9 counterexample: the namespace handed to the interactive shell exposes
callables other than the two commands — `colored` and the two pipeline
classes are callable and are neither `process` nor `usage`. -/
theorem shellLocals_extra_callables_cex :
    ("colored", true) ∈ shellLocals ∧
      ("DrQATransformers", true) ∈ shellLocals ∧
      ("PyseriniTransformersQA", true) ∈ shellLocals ∧
      (shellLocals.filter (fun b => b.2)).length ≠ 2 := by
  decide

/-- C9 amended: the shell's banner documents exactly the two commands
`process` and `usage` (and `usage()` reprints the fixed banner), but the
namespace handed to the interactive interpreter exposes the whole set of local
bindings, whose callables are `colored`, the two pipeline classes, `process`
and `usage`. -/
theorem shellLocals_commands :
    ("process", true) ∈ shellLocals ∧ ("usage", true) ∈ shellLocals ∧
      usageOutput = [bannerText] ∧
      (shellLocals.filter (fun b => b.2)).map Prod.fst =
        ["colored", "DrQATransformers", "PyseriniTransformersQA", "process", "usage"] := by
  refine ⟨by decide, by decide, rfl, by decide⟩

/-- C10: when the backend returns an empty result sequence, `process`
completes normally with no failure: it logs the latency, prints the table
header with zero data rows and the Contexts heading, and renders no context
views. -/
theorem process_empty_results {ε : Type} (r : Retriever)
    (backend : Call → Except ε (List Pred)) (elapsed : Nat) (q : String)
    (top_n n_docs : Nat) (h : backend ⟨q, top_n, n_docs, true⟩ = Except.ok []) :
    process r backend elapsed q top_n n_docs =
      ⟨[⟨q, top_n, n_docs, true⟩],
       [Line.latency elapsed, Line.topPredictions, Line.table [], Line.contextsHeading],
       none⟩ := by
  simp [process, h, renderContexts, renderTable]

/-- Witness for C10 at a concrete empty-result backend. -/
theorem process_empty_results_witness :
    process Retriever.tfidf okBackendEmpty 7 "q" 3 5 =
      ⟨[⟨"q", 3, 5, true⟩],
       [Line.latency 7, Line.topPredictions, Line.table [], Line.contextsHeading],
       none⟩ :=
  process_empty_results Retriever.tfidf okBackendEmpty 7 "q" 3 5 rfl

end DrQAInteractive
